import Mathlib

/-!
Shallow embedding of the motion-control core of the `mechatronics-2019`
repository: the `Movement_PID` controller (`Sub/Src/Dynamics/movement_pid.py`)
and the `Navigation_Controller` state machine
(`Sub/Src/Dynamics/navigation_controller.py`).

Numeric values are modelled over an arbitrary linear ordered field `α`
(instantiated at `ℚ` for concrete evaluation and at `ℝ` where the source
calls the trigonometric library functions `math.cos` / `math.sin`).
External collaborators that are not part of the source tree
(`pid_controller.PID_Controller.control_step`, `thruster.Thruster.set_thrust`,
`math.cos`, `math.sin`) appear as function parameters; the embedding models
the values the core passes *to* them, which is what the claims are about.
-/

namespace Mechatronics

variable {α : Type} [LinearOrderedField α]

/-- One physical thruster, as constructed in `Movement_PID.__init__`:
`Thruster(serial, id, orientation, location, max_thrust, reversed)`.
The `orientation` and `location` triples are `(x, y, z)` components.
`max_thrust` and `reversed` are consumed only by the external
`thruster.Thruster.set_thrust` and play no role in the control law. -/
structure Thruster (α : Type) where
  tid : ℕ
  orientation : α × α × α
  location : α × α × α
  max_thrust : α
  reversed : Bool

/-- The fixed 8-thruster configuration built in `Movement_PID.__init__`
(lines 60-68 of `movement_pid.py`), in list order (index = thruster id - 1). -/
def thrusters (maxT : α) : List (Thruster α) :=
  [ ⟨1, (0, 0, 1), (1, -1, 0), maxT, true⟩
  , ⟨2, (0, 1, 0), (1, 0, 0), maxT, true⟩
  , ⟨3, (0, 0, 1), (1, 1, 0), maxT, false⟩
  , ⟨4, (1, 0, 0), (0, 1, 0), maxT, false⟩
  , ⟨5, (0, 0, 1), (-1, 1, 0), maxT, true⟩
  , ⟨6, (0, 1, 0), (-1, 0, 0), maxT, true⟩
  , ⟨7, (0, 0, 1), (-1, -1, 0), maxT, false⟩
  , ⟨8, (1, 0, 0), (0, -1, 0), maxT, true⟩ ]

/-- The configuration parameters `Movement_PID` loads from the parameter
server in `set_up_PID_controllers` and `__init__`. -/
structure MovementConfig (α : Type) where
  roll_min_error : α
  roll_max_error : α
  pitch_min_error : α
  pitch_max_error : α
  yaw_min_error : α
  yaw_max_error : α
  x_min_error : α
  x_max_error : α
  y_min_error : α
  y_max_error : α
  z_min_error : α
  z_max_error : α
  max_roll : α
  max_pitch : α
  min_z : α
  max_z : α
  z_bias : α
  z_active_bias_depth : α
  thruster_strengths : List α
  remote_yaw_min_thrust : α
  remote_yaw_max_thrust : α
  remote_x_min_thrust : α
  remote_x_max_thrust : α
  remote_y_min_thrust : α
  remote_y_max_thrust : α

/-- `Movement_PID.bound_error`: clamp `unbounded_error` into
`[min_error, max_error]`. -/
def bound_error (unbounded_error min_error max_error : α) : α :=
  if unbounded_error < min_error then min_error
  else if unbounded_error > max_error then max_error
  else unbounded_error

/-- `numpy.interp(x, [x_lo, x_hi], [y_lo, y_hi])`: linear interpolation with
clamping to the endpoint values outside the input domain. -/
def np_interp (x x_lo x_hi y_lo y_hi : α) : α :=
  if x ≤ x_lo then y_lo
  else if x_hi ≤ x then y_hi
  else y_lo + (x - x_lo) * (y_hi - y_lo) / (x_hi - x_lo)

/-- `math.copysign(x, y)`: the magnitude of `x` with the sign of `y`
(for `y ≠ 0`; rationals have no signed zero). -/
def copysign (x y : α) : α :=
  if y < 0 then -|x| else |x|

/-- The six-term base control allocation computed for one thruster inside the
loop of `Movement_PID.controlled_thrust` (lines 222-227). -/
def thrust_allocation (roll_control pitch_control yaw_control x_control
    y_control z_control : α) (t : Thruster α) : α :=
  (-1 * roll_control * t.orientation.2.2 * t.location.2.1) +
  (pitch_control * t.orientation.2.2 * t.location.1) +
  (yaw_control * t.orientation.2.1 * t.location.1) +
  (-1 * x_control * t.orientation.1) +
  (y_control * t.orientation.2.1) +
  (z_control * t.orientation.2.2)

/-- The full value `Movement_PID.controlled_thrust` passes to
`set_thrust` for thruster index `thruster_id` (0-based): base allocation,
then the multiplicative strength trim
`thrust = thrust + thrust * thruster_strengths[id]`, then the depth bias
`z_bias * orientation.z` when `curr_z_pos >= z_active_bias_depth`. -/
def controlled_thrust_value (cfg : MovementConfig α)
    (roll_control pitch_control yaw_control x_control y_control z_control
      curr_z_pos : α) (thruster_id : ℕ) (t : Thruster α) : α :=
  let thrust := thrust_allocation roll_control pitch_control yaw_control
    x_control y_control z_control t
  let thrust := thrust + thrust * cfg.thruster_strengths.getD thruster_id 0
  if curr_z_pos ≥ cfg.z_active_bias_depth then
    thrust + cfg.z_bias * t.orientation.2.2
  else
    thrust

/-- `Movement_PID.controlled_thrust`: the list of values written to the 8
thrusters' `set_thrust`, in thruster-id order. -/
def controlled_thrust (cfg : MovementConfig α) (maxT : α)
    (roll_control pitch_control yaw_control x_control y_control z_control
      curr_z_pos : α) : List α :=
  (thrusters maxT).enum.map fun it =>
    controlled_thrust_value cfg roll_control pitch_control yaw_control
      x_control y_control z_control curr_z_pos it.1 it.2

/-- `Movement_PID.simple_thrust`: writes each entry of `thrusts` directly to
the thruster with the same index; the result is the list of values passed to
`set_thrust`. -/
def simple_thrust (thrusts : List α) : List α := thrusts

/-- The yaw-error computation of `Movement_PID.advance_move` (lines 306-312):
raw difference `desired - current`, wrapped by ±360 when its absolute value
exceeds 180 so the shorter rotational path is chosen. -/
def yaw_error_shortest (desired_yaw curr_yaw : α) : α :=
  let yaw_error := desired_yaw - curr_yaw
  if |yaw_error| > 180 then
    if yaw_error < 0 then yaw_error + 360 else yaw_error - 360
  else yaw_error

/-- The body-frame x error of `advance_move` (line 322):
`cos(yaw_rad) * north_error + sin(yaw_rad) * east_error`, with the cosine and
sine values passed in. -/
def body_frame_x_error (cos_yaw sin_yaw north_error east_error : α) : α :=
  cos_yaw * north_error + sin_yaw * east_error

/-- The body-frame y error of `advance_move` (line 323):
`-sin(yaw_rad) * north_error + cos(yaw_rad) * east_error`. -/
def body_frame_y_error (cos_yaw sin_yaw north_error east_error : α) : α :=
  -1 * sin_yaw * north_error + cos_yaw * east_error

/-- The in-place clamp of the desired roll (or pitch) performed by
`advance_move` (lines 289-290 / 296-297): when the magnitude exceeds the
limit, overwrite with the limit carrying the desired value's sign. -/
def clamp_desired_tilt (limit d : α) : α :=
  if |d| > limit then copysign limit d else d

/-- The in-place clamp of the desired depth performed by `advance_move`
(lines 327-333): force into `[min_z, max_z]`. -/
def clamp_desired_depth (cfg : MovementConfig α) (d : α) : α :=
  if d < cfg.min_z then cfg.min_z
  else if d > cfg.max_z then cfg.max_z
  else d

/-- Result of `advance_move`: the returned error vector, the (mutated)
desired-position list as it stands after the call, and the values written to
the thrusters by the final `controlled_thrust` call. -/
structure AdvanceMoveResult (α : Type) where
  error : List α
  desired_position : List α
  thrusts : List α

/-- `Movement_PID.advance_move`. `cos_of_deg` / `sin_of_deg` stand for
`math.cos(math.radians (·))` / `math.sin(math.radians (·))`; the six
`*_pid` functions stand for the `control_step` of the six external
`PID_Controller` objects at their current internal state. -/
def advance_move (cfg : MovementConfig α) (maxT : α)
    (cos_of_deg sin_of_deg : α → α)
    (roll_pid pitch_pid yaw_pid x_pid y_pid z_pid : α → α)
    (current_position desired_position : List α) : AdvanceMoveResult α :=
  let d0 := clamp_desired_tilt cfg.max_roll (desired_position.getD 0 0)
  let e0 := bound_error (d0 - current_position.getD 0 0)
    cfg.roll_min_error cfg.roll_max_error
  let d1 := clamp_desired_tilt cfg.max_pitch (desired_position.getD 1 0)
  let e1 := bound_error (d1 - current_position.getD 1 0)
    cfg.pitch_min_error cfg.pitch_max_error
  let desired_yaw := desired_position.getD 2 0
  let curr_yaw := current_position.getD 2 0
  let e2 := bound_error (yaw_error_shortest desired_yaw curr_yaw)
    cfg.yaw_min_error cfg.yaw_max_error
  let north_error := desired_position.getD 3 0 - current_position.getD 3 0
  let east_error := desired_position.getD 4 0 - current_position.getD 4 0
  let e3 := bound_error
    (body_frame_x_error (cos_of_deg curr_yaw) (sin_of_deg curr_yaw)
      north_error east_error) cfg.x_min_error cfg.x_max_error
  let e4 := bound_error
    (body_frame_y_error (cos_of_deg curr_yaw) (sin_of_deg curr_yaw)
      north_error east_error) cfg.y_min_error cfg.y_max_error
  let d5 := clamp_desired_depth cfg (desired_position.getD 5 0)
  let e5 := bound_error (d5 - current_position.getD 5 0)
    cfg.z_min_error cfg.z_max_error
  { error := [e0, e1, e2, e3, e4, e5]
  , desired_position :=
      [d0, d1, desired_yaw, desired_position.getD 3 0,
        desired_position.getD 4 0, d5]
  , thrusts := controlled_thrust cfg maxT (roll_pid e0) (pitch_pid e1)
      (yaw_pid e2) (x_pid e3) (y_pid e4) (z_pid e5)
      (current_position.getD 5 0) }

/-- The two `Movement_PID` attributes that implement the remote depth hold:
`remote_desired_depth` and `remote_depth_recorded`. -/
structure RemoteDepthState (α : Type) where
  remote_desired_depth : α
  remote_depth_recorded : Bool

/-- The depth branch of `Movement_PID.remote_move` (lines 375-394): while the
hold flag is set, latch the current depth on the rising edge and compute the
bounded error against the latched value; otherwise clear the latch and
interpolate the trigger axis (separately for its negative and positive
halves). Returns the updated latch state and the depth error. -/
def remote_move_depth (cfg : MovementConfig α) (st : RemoteDepthState α)
    (curr_depth trigger : α) (hold_depth : Bool) : RemoteDepthState α × α :=
  if hold_depth then
    let st' := if st.remote_depth_recorded = false then
        { remote_desired_depth := curr_depth, remote_depth_recorded := true }
      else st
    (st', bound_error (st'.remote_desired_depth - curr_depth)
      cfg.z_min_error cfg.z_max_error)
  else
    ({ remote_desired_depth := 0, remote_depth_recorded := false },
      if trigger ≤ 0 then np_interp trigger (-1) 0 cfg.z_min_error 0
      else np_interp trigger 0 1 0 cfg.z_max_error)

/-- The seven arguments `Movement_PID.remote_move` passes to
`controlled_thrust` (line 401), together with the updated depth-latch state.
Argument order: roll, pitch, yaw, x, y, z controls, then `curr_z_pos`. -/
def remote_move_controls (cfg : MovementConfig α)
    (roll_pid pitch_pid z_pid : α → α) (st : RemoteDepthState α)
    (current_position : List α) (rc_yaw rc_x rc_y rc_depth : α)
    (rc_hold : Bool) :
    RemoteDepthState α × (α × α × α × α × α × α × α) :=
  let roll_error := bound_error (0 - current_position.getD 0 0)
    cfg.roll_min_error cfg.roll_max_error
  let pitch_error := bound_error (0 - current_position.getD 1 0)
    cfg.pitch_min_error cfg.pitch_max_error
  let yaw_control := np_interp rc_yaw (-1) 1
    cfg.remote_yaw_min_thrust cfg.remote_yaw_max_thrust
  let x_control := np_interp rc_x (-1) 1
    cfg.remote_x_min_thrust cfg.remote_x_max_thrust
  let y_control := np_interp rc_y (-1) 1
    cfg.remote_y_min_thrust cfg.remote_y_max_thrust
  let p := remote_move_depth cfg st (current_position.getD 5 0) rc_depth rc_hold
  (p.1, (roll_pid roll_error, pitch_pid pitch_error, yaw_control,
    -1 * x_control, y_control, z_pid p.2, current_position.getD 5 0))

/-- `Movement_PID.remote_move`: the updated depth-latch state and the values
written to the 8 thrusters. -/
def remote_move (cfg : MovementConfig α) (maxT : α)
    (roll_pid pitch_pid z_pid : α → α) (st : RemoteDepthState α)
    (current_position : List α) (rc_yaw rc_x rc_y rc_depth : α)
    (rc_hold : Bool) : RemoteDepthState α × List α :=
  let p := remote_move_controls cfg roll_pid pitch_pid z_pid st
    current_position rc_yaw rc_x rc_y rc_depth rc_hold
  (p.1, controlled_thrust cfg maxT p.2.1 p.2.2.1 p.2.2.2.1 p.2.2.2.2.1
    p.2.2.2.2.2.1 p.2.2.2.2.2.2.1 p.2.2.2.2.2.2.2)

/-- The fields of `Navigation_Controller` read by the control tick `run` and
by its message callbacks. `sub_killed` starts at `1` and is overwritten by
the `KILL_SUB` callback (a Python bool compares equal to `1` when true, so it
is modelled as `ℕ`). The remote command fields are the unpacked
`[yaw, x, y, depth, hold_depth, record_waypoint, zero_position]` message. -/
structure NavState (α : Type) where
  sub_killed : ℕ
  movement_mode : ℕ
  current_position : List α
  desired_position : List α
  pos_error : List α
  rc_yaw : α
  rc_x : α
  rc_y : α
  rc_depth : α
  rc_hold : Bool
  rc_record : Bool
  remote_depth_state : RemoteDepthState α

/-- One iteration of the dispatch inside `Navigation_Controller.run`
(lines 376-401): the kill check comes first and issues zero thrust to all 8
thrusters; otherwise the movement mode selects `advance_move` (modes 0 and
3), nothing (mode 1, `continue`), or `remote_move` (mode 2). Returns the
updated controller state and the list of values written to the thrusters
during the tick. -/
def nav_tick (cfg : MovementConfig α) (maxT : α)
    (cos_of_deg sin_of_deg roll_pid pitch_pid yaw_pid x_pid y_pid
      z_pid : α → α) (s : NavState α) : NavState α × List α :=
  if s.sub_killed = 1 then
    (s, simple_thrust [0, 0, 0, 0, 0, 0, 0, 0])
  else if s.movement_mode = 0 then
    let r := advance_move cfg maxT cos_of_deg sin_of_deg roll_pid pitch_pid
      yaw_pid x_pid y_pid z_pid s.current_position s.desired_position
    ({ s with pos_error := r.error, desired_position := r.desired_position },
      r.thrusts)
  else if s.movement_mode = 1 then
    (s, [])
  else if s.movement_mode = 2 then
    let p := remote_move cfg maxT roll_pid pitch_pid z_pid
      s.remote_depth_state s.current_position s.rc_yaw s.rc_x s.rc_y
      s.rc_depth s.rc_hold
    ({ s with remote_depth_state := p.1 }, p.2)
  else if s.movement_mode = 3 then
    let r := advance_move cfg maxT cos_of_deg sin_of_deg roll_pid pitch_pid
      yaw_pid x_pid y_pid z_pid s.current_position s.desired_position
    ({ s with desired_position := r.desired_position }, r.thrusts)
  else
    (s, [])

/-- `Navigation_Controller.__update_thruster_test_callback`: on receipt of a
`THRUSTS` message it calls `simple_thrust(thrusts)` unconditionally — the
callback consults neither `sub_killed` nor `movement_mode`. The result is
the list of values written to the thrusters by the callback. -/
def update_thruster_test_callback (thrusts : List α) : List α :=
  simple_thrust thrusts

/-- All thrust values written to the thrusters during one control tick of
`Navigation_Controller.run` together with those written by the thruster-test
callback, should a `THRUSTS` message be handled (on the command-listener
thread) during that tick. -/
def nav_commands_issued (cfg : MovementConfig α) (maxT : α)
    (cos_of_deg sin_of_deg roll_pid pitch_pid yaw_pid x_pid y_pid
      z_pid : α → α) (s : NavState α)
    (thruster_test_msg : Option (List α)) : List α :=
  (nav_tick cfg maxT cos_of_deg sin_of_deg roll_pid pitch_pid yaw_pid x_pid
      y_pid z_pid s).2 ++
    (match thruster_test_msg with
      | some th => update_thruster_test_callback th
      | none => [])

/-- The waypoint-collection fields of `Navigation_Controller`:
the enable flag, the running sequence counter, and the rows written to the
currently open waypoint log file (modelled as the list of sequence numbers
written, since the claim is about the numbering). -/
structure WaypointState where
  enable_waypoint_collection : Bool
  current_waypoint_number : ℕ
  session_rows : List ℕ

/-- The two external events that drive waypoint collection:
an `ENABLE_WAYPOINT_COLLECTION` message carrying a boolean, and a
`REMOTE_CONTROL_COMMAND` message whose `record_waypoint` flag
(`remote_commands[5]`) may be pressed. -/
inductive WaypointEvent where
  | enable (b : Bool)
  | remoteCommand (press : Bool)

/-- The waypoint-collection step function, combining
`Navigation_Controller.__update_enable_waypoint_collection` (lines 266-279:
enabling opens a fresh log file — empty rows — and resets
`current_waypoint_number` to 0; disabling closes the file) and
`Navigation_Controller._read_remote_control` (lines 240-245: while enabled, a
pressed `record_waypoint` flag writes a row with the current number and then
increments it). -/
def waypoint_step (s : WaypointState) (e : WaypointEvent) : WaypointState :=
  match e with
  | .enable b =>
    if b then
      { enable_waypoint_collection := true
      , current_waypoint_number := 0
      , session_rows := [] }
    else
      { s with enable_waypoint_collection := false }
  | .remoteCommand press =>
    if s.enable_waypoint_collection && press then
      { s with
        session_rows := s.session_rows ++ [s.current_waypoint_number]
      , current_waypoint_number := s.current_waypoint_number + 1 }
    else s

/-- `math.cos(math.radians θ)`: cosine of an angle given in degrees;
`math.radians θ = θ * (π / 180)`. -/
noncomputable def cos_of_degrees (θ : ℝ) : ℝ := Real.cos (θ * (Real.pi / 180))

/-- `math.sin(math.radians θ)`: sine of an angle given in degrees. -/
noncomputable def sin_of_degrees (θ : ℝ) : ℝ := Real.sin (θ * (Real.pi / 180))

/-- Iterate the depth branch of `remote_move` over a list of observed current
depths, with the hold flag asserted on every call (the trigger value is
irrelevant while held). -/
def hold_depth_fold (cfg : MovementConfig α) (st : RemoteDepthState α)
    (depths : List α) : RemoteDepthState α :=
  depths.foldl (fun s d => (remote_move_depth cfg s d 0 true).1) st

/-- A concrete configuration used to evaluate the theorems at concrete
inputs. -/
def sampleCfg : MovementConfig ℚ where
  roll_min_error := -10
  roll_max_error := 10
  pitch_min_error := -10
  pitch_max_error := 10
  yaw_min_error := -20
  yaw_max_error := 20
  x_min_error := -5
  x_max_error := 5
  y_min_error := -5
  y_max_error := 5
  z_min_error := -4
  z_max_error := 6
  max_roll := 30
  max_pitch := 30
  min_z := 0
  max_z := 20
  z_bias := 5
  z_active_bias_depth := 10
  thruster_strengths := [0, 0, 0, 0, 0, 0, 0, 0]
  remote_yaw_min_thrust := -30
  remote_yaw_max_thrust := 30
  remote_x_min_thrust := -40
  remote_x_max_thrust := 40
  remote_y_min_thrust := -40
  remote_y_max_thrust := 40

/-- A concrete, unkilled navigation-controller state in PID-tuning mode. -/
def sampleNavState : NavState ℚ where
  sub_killed := 0
  movement_mode := 0
  current_position := [0, 0, 0, 0, 0, 0]
  desired_position := [50, 0, 0, 0, 0, 100]
  pos_error := [0, 0, 0, 0, 0, 0]
  rc_yaw := 0
  rc_x := 0
  rc_y := 0
  rc_depth := 0
  rc_hold := false
  rc_record := false
  remote_depth_state := ⟨0, false⟩

/-- The sample state with the kill flag set. -/
def killedNavState : NavState ℚ :=
  { sampleNavState with sub_killed := 1 }

/-! ### Helper lemmas -/

/-- `controlled_thrust` on the fixed 8-thruster list, written out. -/
lemma controlled_thrust_explicit (cfg : MovementConfig α)
    (maxT roll_control pitch_control yaw_control x_control y_control
      z_control curr_z_pos : α) :
    controlled_thrust cfg maxT roll_control pitch_control yaw_control
        x_control y_control z_control curr_z_pos =
      [ controlled_thrust_value cfg roll_control pitch_control yaw_control
          x_control y_control z_control curr_z_pos 0
          ⟨1, (0, 0, 1), (1, -1, 0), maxT, true⟩
      , controlled_thrust_value cfg roll_control pitch_control yaw_control
          x_control y_control z_control curr_z_pos 1
          ⟨2, (0, 1, 0), (1, 0, 0), maxT, true⟩
      , controlled_thrust_value cfg roll_control pitch_control yaw_control
          x_control y_control z_control curr_z_pos 2
          ⟨3, (0, 0, 1), (1, 1, 0), maxT, false⟩
      , controlled_thrust_value cfg roll_control pitch_control yaw_control
          x_control y_control z_control curr_z_pos 3
          ⟨4, (1, 0, 0), (0, 1, 0), maxT, false⟩
      , controlled_thrust_value cfg roll_control pitch_control yaw_control
          x_control y_control z_control curr_z_pos 4
          ⟨5, (0, 0, 1), (-1, 1, 0), maxT, true⟩
      , controlled_thrust_value cfg roll_control pitch_control yaw_control
          x_control y_control z_control curr_z_pos 5
          ⟨6, (0, 1, 0), (-1, 0, 0), maxT, true⟩
      , controlled_thrust_value cfg roll_control pitch_control yaw_control
          x_control y_control z_control curr_z_pos 6
          ⟨7, (0, 0, 1), (-1, -1, 0), maxT, false⟩
      , controlled_thrust_value cfg roll_control pitch_control yaw_control
          x_control y_control z_control curr_z_pos 7
          ⟨8, (1, 0, 0), (0, -1, 0), maxT, true⟩ ] := rfl

/-- The per-thruster value as a closed formula: base allocation times the
multiplicative trim `1 + strength`, plus the depth bias when active. -/
lemma controlled_thrust_value_eq (cfg : MovementConfig α)
    (roll_control pitch_control yaw_control x_control y_control z_control
      curr_z_pos : α) (i : ℕ) (t : Thruster α) :
    controlled_thrust_value cfg roll_control pitch_control yaw_control
        x_control y_control z_control curr_z_pos i t =
      (if curr_z_pos ≥ cfg.z_active_bias_depth then
        ((-roll_control * t.orientation.2.2 * t.location.2.1) +
          (pitch_control * t.orientation.2.2 * t.location.1) +
          (yaw_control * t.orientation.2.1 * t.location.1) +
          (-x_control * t.orientation.1) +
          (y_control * t.orientation.2.1) +
          (z_control * t.orientation.2.2)) *
            (1 + cfg.thruster_strengths.getD i 0) +
          cfg.z_bias * t.orientation.2.2
      else
        ((-roll_control * t.orientation.2.2 * t.location.2.1) +
          (pitch_control * t.orientation.2.2 * t.location.1) +
          (yaw_control * t.orientation.2.1 * t.location.1) +
          (-x_control * t.orientation.1) +
          (y_control * t.orientation.2.1) +
          (z_control * t.orientation.2.2)) *
            (1 + cfg.thruster_strengths.getD i 0)) := by
  unfold controlled_thrust_value thrust_allocation
  split_ifs <;> ring

/-! ### Claim theorems -/

/-- C8: `bound_error(raw, min_error, max_error)` is a pure clamp: it returns
`min_error` when `raw < min_error`, `max_error` when `raw > max_error`, and
`raw` unchanged otherwise; whenever `min_error ≤ max_error` the result lies
in `[min_error, max_error]`, and it equals `raw` whenever
`min_error ≤ raw ≤ max_error`. -/
theorem bound_error_is_pure_clamp (raw lo hi : α) :
    (raw < lo → bound_error raw lo hi = lo) ∧
    (lo ≤ raw → raw > hi → bound_error raw lo hi = hi) ∧
    (lo ≤ raw → raw ≤ hi → bound_error raw lo hi = raw) ∧
    (lo ≤ hi → lo ≤ bound_error raw lo hi ∧ bound_error raw lo hi ≤ hi) := by
  unfold bound_error
  refine ⟨fun h => ?_, fun h0 h => ?_, fun h1 h2 => ?_, fun h => ?_⟩ <;>
    split_ifs <;> first | rfl | (constructor <;> linarith) | linarith

/-- Witness for C8 at concrete inputs. -/
theorem bound_error_is_pure_clamp_witness :
    bound_error (-5 : ℚ) 0 3 = 0 ∧ bound_error (7 : ℚ) 0 3 = 3 ∧
      bound_error (2 : ℚ) 0 3 = 2 ∧
      (0 ≤ bound_error (2 : ℚ) 0 3 ∧ bound_error (2 : ℚ) 0 3 ≤ 3) :=
  ⟨(bound_error_is_pure_clamp (-5 : ℚ) 0 3).1 (by norm_num),
    (bound_error_is_pure_clamp (7 : ℚ) 0 3).2.1 (by norm_num) (by norm_num),
    (bound_error_is_pure_clamp (2 : ℚ) 0 3).2.2.1 (by norm_num) (by norm_num),
    (bound_error_is_pure_clamp (2 : ℚ) 0 3).2.2.2 (by norm_num)⟩

/-- C4: the yaw error of `advance_move` is `desired_yaw - current_yaw`,
wrapped by adding 360 (when negative) or subtracting 360 (when positive)
whenever its absolute value exceeds 180, before bounding; in particular
`desired=170, current=-170` wraps `340` to `-20`, and
`desired=-170, current=170` wraps `-340` to `20`; the third component of the
returned error vector is the bounded wrapped error. -/
theorem advance_move_yaw_wrap (desired_yaw curr_yaw : α) :
    (|desired_yaw - curr_yaw| ≤ 180 →
      yaw_error_shortest desired_yaw curr_yaw = desired_yaw - curr_yaw) ∧
    (|desired_yaw - curr_yaw| > 180 → desired_yaw - curr_yaw < 0 →
      yaw_error_shortest desired_yaw curr_yaw =
        desired_yaw - curr_yaw + 360) ∧
    (|desired_yaw - curr_yaw| > 180 → 0 ≤ desired_yaw - curr_yaw →
      yaw_error_shortest desired_yaw curr_yaw =
        desired_yaw - curr_yaw - 360) ∧
    yaw_error_shortest (170 : α) (-170) = -20 ∧
    yaw_error_shortest (-170 : α) 170 = 20 ∧
    (∀ (cfg : MovementConfig α) (maxT : α)
        (cos_of_deg sin_of_deg roll_pid pitch_pid yaw_pid x_pid y_pid
          z_pid : α → α) (current_position desired_position : List α),
      (advance_move cfg maxT cos_of_deg sin_of_deg roll_pid pitch_pid yaw_pid
          x_pid y_pid z_pid current_position desired_position).error.getD 2 0 =
        bound_error
          (yaw_error_shortest (desired_position.getD 2 0)
            (current_position.getD 2 0))
          cfg.yaw_min_error cfg.yaw_max_error) := by
  refine ⟨fun h => ?_, fun h hneg => ?_, fun h hpos => ?_, ?_, ?_,
    fun cfg maxT f g rp pp yp xp ypd zp cp dp => rfl⟩
  · dsimp only [yaw_error_shortest]
    split_ifs with h1 h2
    · exact absurd h1 (not_lt.mpr h)
    · exact absurd h1 (not_lt.mpr h)
    · rfl
  · dsimp only [yaw_error_shortest]
    split_ifs with h1
    · rfl
    · exact absurd h h1
  · dsimp only [yaw_error_shortest]
    split_ifs with h1 h2 <;>
      first
        | rfl
        | exact absurd h2 (not_lt.mpr hpos)
        | exact absurd h h1
  · dsimp only [yaw_error_shortest]
    rw [show (170 : α) - -170 = 340 by norm_num,
      abs_of_pos (show (0 : α) < 340 by norm_num),
      if_pos (show (340 : α) > 180 by norm_num),
      if_neg (show ¬(340 : α) < 0 by norm_num)]
    norm_num
  · dsimp only [yaw_error_shortest]
    rw [show (-170 : α) - 170 = -340 by norm_num,
      abs_of_neg (show (-340 : α) < 0 by norm_num),
      if_pos (show -(-340 : α) > 180 by norm_num),
      if_pos (show (-340 : α) < 0 by norm_num)]
    norm_num

/-- Witness for C4 at concrete inputs. -/
theorem advance_move_yaw_wrap_witness :
    yaw_error_shortest (10 : ℚ) 30 = 10 - 30 ∧
      yaw_error_shortest (170 : ℚ) (-170) = -20 ∧
      yaw_error_shortest (-170 : ℚ) 170 = 20 :=
  ⟨(advance_move_yaw_wrap (10 : ℚ) 30).1 (by norm_num),
    (advance_move_yaw_wrap (170 : ℚ) (-170)).2.2.2.1,
    (advance_move_yaw_wrap (-170 : ℚ) 170).2.2.2.2.1⟩

/-- C2: for every call of `controlled_thrust`, the value passed to each
thruster's `set_thrust` is the six-term base allocation, multiplied by
`1 + strength_offset[thruster]` (the multiplicative trim, applied first),
then increased by `z_bias * orientation.z` if and only if
`curr_z_pos ≥ z_active_bias_depth` (applied second, so the bias term is not
scaled by the trim); the list written out by `controlled_thrust` applies this
to the 8 thrusters in id order. -/
theorem controlled_thrust_allocation_formula (cfg : MovementConfig α)
    (maxT roll_control pitch_control yaw_control x_control y_control
      z_control curr_z_pos : α) :
    (∀ (i : ℕ) (t : Thruster α),
      controlled_thrust_value cfg roll_control pitch_control yaw_control
          x_control y_control z_control curr_z_pos i t =
        (if curr_z_pos ≥ cfg.z_active_bias_depth then
          ((-roll_control * t.orientation.2.2 * t.location.2.1) +
            (pitch_control * t.orientation.2.2 * t.location.1) +
            (yaw_control * t.orientation.2.1 * t.location.1) +
            (-x_control * t.orientation.1) +
            (y_control * t.orientation.2.1) +
            (z_control * t.orientation.2.2)) *
              (1 + cfg.thruster_strengths.getD i 0) +
            cfg.z_bias * t.orientation.2.2
        else
          ((-roll_control * t.orientation.2.2 * t.location.2.1) +
            (pitch_control * t.orientation.2.2 * t.location.1) +
            (yaw_control * t.orientation.2.1 * t.location.1) +
            (-x_control * t.orientation.1) +
            (y_control * t.orientation.2.1) +
            (z_control * t.orientation.2.2)) *
              (1 + cfg.thruster_strengths.getD i 0))) ∧
    controlled_thrust cfg maxT roll_control pitch_control yaw_control
        x_control y_control z_control curr_z_pos =
      (thrusters maxT).enum.map (fun it =>
        controlled_thrust_value cfg roll_control pitch_control yaw_control
          x_control y_control z_control curr_z_pos it.1 it.2) :=
  ⟨fun i t => controlled_thrust_value_eq cfg roll_control pitch_control
    yaw_control x_control y_control z_control curr_z_pos i t, rfl⟩

/-- While the latch is set, held calls leave the latch state unchanged. -/
lemma hold_depth_fold_const (cfg : MovementConfig α) (d : α)
    (ds : List α) : hold_depth_fold cfg ⟨d, true⟩ ds = ⟨d, true⟩ := by
  induction ds with
  | nil => rfl
  | cons x xs ih =>
    simpa [hold_depth_fold, remote_move_depth] using ih

/-- The waypoint-session invariant: the rows written to the current log file
are exactly `0, 1, …, current_waypoint_number - 1`, preserved by every
event. -/
lemma waypoint_invariant (es : List WaypointEvent) :
    ∀ s : WaypointState, s.session_rows = List.range s.current_waypoint_number →
      (es.foldl waypoint_step s).session_rows =
        List.range (es.foldl waypoint_step s).current_waypoint_number := by
  induction es with
  | nil => exact fun s h => h
  | cons e es ih =>
    intro s h
    apply ih
    cases e with
    | enable b => cases b <;> simp [waypoint_step, h]
    | remoteCommand press =>
      by_cases hp : s.enable_waypoint_collection && press
      · simp [waypoint_step, hp, h, List.range_succ]
      · simp [waypoint_step, hp, h]

/-- C3: under the fixed 8-thruster configuration, the yaw control input
affects the commanded thrust of exactly the thrusters with id 2 and id 6
(list indices 1 and 5): the other six thrusters receive the same command for
any two yaw control values whatever the other control inputs are, while
thrusters 2 and 6 receive different commands for different yaw values
(provided the multiplicative trim `1 + strength` does not vanish). -/
theorem yaw_affects_only_thrusters_2_and_6 (cfg : MovementConfig α)
    (maxT roll_control pitch_control x_control y_control z_control
      curr_z_pos y1 y2 : α) :
    (∀ i : ℕ, i < 8 → i ≠ 1 → i ≠ 5 →
      (controlled_thrust cfg maxT roll_control pitch_control y1 x_control
          y_control z_control curr_z_pos).getD i 0 =
        (controlled_thrust cfg maxT roll_control pitch_control y2 x_control
          y_control z_control curr_z_pos).getD i 0) ∧
    (∀ i : ℕ, i = 1 ∨ i = 5 → y1 ≠ y2 →
      1 + cfg.thruster_strengths.getD i 0 ≠ 0 →
      (controlled_thrust cfg maxT roll_control pitch_control y1 x_control
          y_control z_control curr_z_pos).getD i 0 ≠
        (controlled_thrust cfg maxT roll_control pitch_control y2 x_control
          y_control z_control curr_z_pos).getD i 0) := by
  constructor
  · intro i hilt h1 h5
    rw [controlled_thrust_explicit, controlled_thrust_explicit]
    interval_cases i <;>
      first
        | exact absurd rfl h1
        | exact absurd rfl h5
        | (simp only [List.getD_cons_succ, List.getD_cons_zero]
           rw [controlled_thrust_value_eq, controlled_thrust_value_eq]
           split_ifs <;> ring)
  · intro i hi hy hs
    rw [controlled_thrust_explicit, controlled_thrust_explicit]
    rcases hi with rfl | rfl
    · simp only [List.getD_cons_succ, List.getD_cons_zero]
      rw [controlled_thrust_value_eq, controlled_thrust_value_eq]
      intro heq
      have hzero : (y1 - y2) * (1 + cfg.thruster_strengths.getD 1 0) = 0 := by
        split_ifs at heq <;> linear_combination heq
      rcases mul_eq_zero.mp hzero with hc | hc
      · exact hy (sub_eq_zero.mp hc)
      · exact hs hc
    · simp only [List.getD_cons_succ, List.getD_cons_zero]
      rw [controlled_thrust_value_eq, controlled_thrust_value_eq]
      intro heq
      have hzero : (y1 - y2) * (1 + cfg.thruster_strengths.getD 5 0) = 0 := by
        split_ifs at heq <;> linear_combination -heq
      rcases mul_eq_zero.mp hzero with hc | hc
      · exact hy (sub_eq_zero.mp hc)
      · exact hs hc

/-- Witness for C3 at concrete inputs: yaw 1 versus yaw 2 leaves thruster 1
(index 0) unchanged and changes thruster 2 (index 1). -/
theorem yaw_affects_only_thrusters_2_and_6_witness :
    (controlled_thrust sampleCfg 80 0 0 (1 : ℚ) 0 0 0 0).getD 0 0 =
      (controlled_thrust sampleCfg 80 0 0 (2 : ℚ) 0 0 0 0).getD 0 0 ∧
    (controlled_thrust sampleCfg 80 0 0 (1 : ℚ) 0 0 0 0).getD 1 0 ≠
      (controlled_thrust sampleCfg 80 0 0 (2 : ℚ) 0 0 0 0).getD 1 0 :=
  ⟨(yaw_affects_only_thrusters_2_and_6 sampleCfg 80 0 0 0 0 0 0 1 2).1 0
      (by norm_num) (by norm_num) (by norm_num),
    (yaw_affects_only_thrusters_2_and_6 sampleCfg 80 0 0 0 0 0 0 1 2).2 1
      (Or.inl rfl) (by norm_num) (by simp [sampleCfg])⟩

/-- C5: `advance_move` rotates the world-frame north/east error into the body
frame with the current yaw converted to radians:
`x_error = cos(yaw)*north_error + sin(yaw)*east_error` and
`y_error = -sin(yaw)*north_error + cos(yaw)*east_error` (components 3 and 4
of the returned error vector are those values bounded); consequently at
`current_yaw = 0` the x error equals the north error and the y error equals
the east error, and at `current_yaw = 90` degrees the x error equals the east
error and the y error equals the negated north error. -/
theorem advance_move_body_frame_rotation (cfg : MovementConfig ℝ)
    (maxT : ℝ) (roll_pid pitch_pid yaw_pid x_pid y_pid z_pid : ℝ → ℝ)
    (current_position desired_position : List ℝ) :
    ((advance_move cfg maxT cos_of_degrees sin_of_degrees roll_pid pitch_pid
        yaw_pid x_pid y_pid z_pid current_position
        desired_position).error.getD 3 0 =
      bound_error
        (body_frame_x_error (cos_of_degrees (current_position.getD 2 0))
          (sin_of_degrees (current_position.getD 2 0))
          (desired_position.getD 3 0 - current_position.getD 3 0)
          (desired_position.getD 4 0 - current_position.getD 4 0))
        cfg.x_min_error cfg.x_max_error) ∧
    ((advance_move cfg maxT cos_of_degrees sin_of_degrees roll_pid pitch_pid
        yaw_pid x_pid y_pid z_pid current_position
        desired_position).error.getD 4 0 =
      bound_error
        (body_frame_y_error (cos_of_degrees (current_position.getD 2 0))
          (sin_of_degrees (current_position.getD 2 0))
          (desired_position.getD 3 0 - current_position.getD 3 0)
          (desired_position.getD 4 0 - current_position.getD 4 0))
        cfg.y_min_error cfg.y_max_error) ∧
    (∀ north_error east_error : ℝ,
      body_frame_x_error (cos_of_degrees 0) (sin_of_degrees 0)
          north_error east_error = north_error ∧
        body_frame_y_error (cos_of_degrees 0) (sin_of_degrees 0)
          north_error east_error = east_error) ∧
    (∀ north_error east_error : ℝ,
      body_frame_x_error (cos_of_degrees 90) (sin_of_degrees 90)
          north_error east_error = east_error ∧
        body_frame_y_error (cos_of_degrees 90) (sin_of_degrees 90)
          north_error east_error = -north_error) := by
  have h90 : (90 : ℝ) * (Real.pi / 180) = Real.pi / 2 := by ring
  refine ⟨rfl, rfl, fun ne ee => ⟨?_, ?_⟩, fun ne ee => ⟨?_, ?_⟩⟩ <;>
    simp only [body_frame_x_error, body_frame_y_error, cos_of_degrees,
      sin_of_degrees, h90, zero_mul, Real.cos_zero, Real.sin_zero,
      Real.cos_pi_div_two, Real.sin_pi_div_two] <;> ring

/-- C6: in the depth branch of `remote_move`, asserting the hold flag latches
the current depth at the rising edge; while the flag stays asserted the latch
is unchanged and the depth error is the bounded difference between the
latched value and the current depth; observing the flag unasserted clears the
latch, so a later re-assertion re-latches to the then-current depth; across
any sequence of held calls after a rising edge the latch keeps the depth
observed at the edge. -/
theorem remote_move_depth_hold_latch (cfg : MovementConfig α)
    (st : RemoteDepthState α) (curr_depth curr_depth' trigger trigger' : α) :
    (st.remote_depth_recorded = false →
      (remote_move_depth cfg st curr_depth trigger true).1 =
        ⟨curr_depth, true⟩) ∧
    (st.remote_depth_recorded = true →
      (remote_move_depth cfg st curr_depth trigger true).1 = st ∧
        (remote_move_depth cfg st curr_depth trigger true).2 =
          bound_error (st.remote_desired_depth - curr_depth)
            cfg.z_min_error cfg.z_max_error) ∧
    ((remote_move_depth cfg st curr_depth trigger false).1 = ⟨0, false⟩) ∧
    (∀ ds : List α, st.remote_depth_recorded = false →
      hold_depth_fold cfg
          (remote_move_depth cfg st curr_depth trigger true).1 ds =
        ⟨curr_depth, true⟩) ∧
    ((remote_move_depth cfg
        (remote_move_depth cfg st curr_depth trigger false).1
        curr_depth' trigger' true).1 = ⟨curr_depth', true⟩) := by
  refine ⟨fun h => ?_, fun h => ⟨?_, ?_⟩, ?_, fun ds h => ?_, ?_⟩
  · simp [remote_move_depth, h]
  · simp [remote_move_depth, h]
  · simp [remote_move_depth, h]
  · simp [remote_move_depth]
  · rw [show (remote_move_depth cfg st curr_depth trigger true).1 =
        ⟨curr_depth, true⟩ by simp [remote_move_depth, h]]
    exact hold_depth_fold_const cfg curr_depth ds
  · simp [remote_move_depth]

/-- Witness for C6 at concrete inputs: latch at depth 12, hold it across
depth changes to 13 and 14, and re-latch at 15 after a release. -/
theorem remote_move_depth_hold_latch_witness :
    (remote_move_depth sampleCfg ⟨0, false⟩ (12 : ℚ) 0 true).1 =
      ⟨12, true⟩ ∧
    (remote_move_depth sampleCfg ⟨12, true⟩ (14 : ℚ) 0 true).1 =
      ⟨12, true⟩ ∧
    hold_depth_fold sampleCfg
        (remote_move_depth sampleCfg ⟨0, false⟩ (12 : ℚ) 0 true).1
        [13, 14] = ⟨12, true⟩ ∧
    (remote_move_depth sampleCfg
        (remote_move_depth sampleCfg ⟨12, true⟩ (14 : ℚ) 0 false).1
        15 0 true).1 = ⟨15, true⟩ :=
  ⟨(remote_move_depth_hold_latch sampleCfg ⟨0, false⟩ 12 0 0 0).1 rfl,
    ((remote_move_depth_hold_latch sampleCfg ⟨12, true⟩ 14 0 0 0).2.1 rfl).1,
    (remote_move_depth_hold_latch sampleCfg ⟨0, false⟩ 12 0 0 0).2.2.2.1
      [13, 14] rfl,
    (remote_move_depth_hold_latch sampleCfg ⟨12, true⟩ 14 15 0 0).2.2.2.2⟩

/-- C7: `remote_move` always levels roll and pitch toward zero (bounded
`0 - current` errors through their PID primitives), obtains the yaw, x and y
control values by `numpy.interp` of the joystick axes from `[-1, 1]` to the
configured per-axis thrust ranges and passes them to `controlled_thrust`
directly — unchanged by any PID step function — with the x control value
negated; only roll, pitch and depth go through a PID primitive. -/
theorem remote_move_bypasses_pid_for_yaw_x_y (cfg : MovementConfig α)
    (maxT : α) (roll_pid pitch_pid z_pid : α → α) (st : RemoteDepthState α)
    (current_position : List α) (rc_yaw rc_x rc_y rc_depth : α)
    (rc_hold : Bool) :
    (remote_move_controls cfg roll_pid pitch_pid z_pid st current_position
        rc_yaw rc_x rc_y rc_depth rc_hold).2 =
      (roll_pid (bound_error (0 - current_position.getD 0 0)
          cfg.roll_min_error cfg.roll_max_error),
        pitch_pid (bound_error (0 - current_position.getD 1 0)
          cfg.pitch_min_error cfg.pitch_max_error),
        np_interp rc_yaw (-1) 1 cfg.remote_yaw_min_thrust
          cfg.remote_yaw_max_thrust,
        -1 * np_interp rc_x (-1) 1 cfg.remote_x_min_thrust
          cfg.remote_x_max_thrust,
        np_interp rc_y (-1) 1 cfg.remote_y_min_thrust
          cfg.remote_y_max_thrust,
        z_pid (remote_move_depth cfg st (current_position.getD 5 0) rc_depth
          rc_hold).2,
        current_position.getD 5 0) ∧
    remote_move cfg maxT roll_pid pitch_pid z_pid st current_position rc_yaw
        rc_x rc_y rc_depth rc_hold =
      ((remote_move_depth cfg st (current_position.getD 5 0) rc_depth
          rc_hold).1,
        controlled_thrust cfg maxT
          (roll_pid (bound_error (0 - current_position.getD 0 0)
            cfg.roll_min_error cfg.roll_max_error))
          (pitch_pid (bound_error (0 - current_position.getD 1 0)
            cfg.pitch_min_error cfg.pitch_max_error))
          (np_interp rc_yaw (-1) 1 cfg.remote_yaw_min_thrust
            cfg.remote_yaw_max_thrust)
          (-1 * np_interp rc_x (-1) 1 cfg.remote_x_min_thrust
            cfg.remote_x_max_thrust)
          (np_interp rc_y (-1) 1 cfg.remote_y_min_thrust
            cfg.remote_y_max_thrust)
          (z_pid (remote_move_depth cfg st (current_position.getD 5 0)
            rc_depth rc_hold).2)
          (current_position.getD 5 0)) :=
  ⟨rfl, rfl⟩

/-- C10: `advance_move` overwrites the components of its desired-position
argument with their clamped values: roll and pitch are replaced by the
copy-signed maximum when their magnitude exceeds it, depth is forced into
`[min_z, max_z]`, and components within their limits (always including yaw,
north and east) are left unchanged; through the controller tick the
navigation controller's long-lived desired position holds exactly the
clamped list after the call in both modes that invoke `advance_move`. -/
theorem advance_move_clamps_desired_in_place (cfg : MovementConfig α)
    (maxT : α) (cos_of_deg sin_of_deg roll_pid pitch_pid yaw_pid x_pid y_pid
      z_pid : α → α) (current_position desired_position : List α) :
    (advance_move cfg maxT cos_of_deg sin_of_deg roll_pid pitch_pid yaw_pid
        x_pid y_pid z_pid current_position desired_position).desired_position =
      [ clamp_desired_tilt cfg.max_roll (desired_position.getD 0 0)
      , clamp_desired_tilt cfg.max_pitch (desired_position.getD 1 0)
      , desired_position.getD 2 0
      , desired_position.getD 3 0
      , desired_position.getD 4 0
      , clamp_desired_depth cfg (desired_position.getD 5 0) ] ∧
    (∀ d : α, |d| ≤ cfg.max_roll → clamp_desired_tilt cfg.max_roll d = d) ∧
    (∀ d : α, |d| > cfg.max_roll →
      clamp_desired_tilt cfg.max_roll d = copysign cfg.max_roll d) ∧
    (∀ d : α, |d| ≤ cfg.max_pitch → clamp_desired_tilt cfg.max_pitch d = d) ∧
    (∀ d : α, |d| > cfg.max_pitch →
      clamp_desired_tilt cfg.max_pitch d = copysign cfg.max_pitch d) ∧
    (∀ d : α, cfg.min_z ≤ d → d ≤ cfg.max_z →
      clamp_desired_depth cfg d = d) ∧
    (∀ d : α, d < cfg.min_z → clamp_desired_depth cfg d = cfg.min_z) ∧
    (∀ d : α, cfg.min_z ≤ d → d > cfg.max_z →
      clamp_desired_depth cfg d = cfg.max_z) ∧
    (∀ s : NavState α, ¬s.sub_killed = 1 →
      s.movement_mode = 0 ∨ s.movement_mode = 3 →
      (nav_tick cfg maxT cos_of_deg sin_of_deg roll_pid pitch_pid yaw_pid
          x_pid y_pid z_pid s).1.desired_position =
        (advance_move cfg maxT cos_of_deg sin_of_deg roll_pid pitch_pid
          yaw_pid x_pid y_pid z_pid s.current_position
          s.desired_position).desired_position) := by
  refine ⟨rfl, fun d hd => ?_, fun d hd => ?_, fun d hd => ?_, fun d hd => ?_,
    fun d h1 h2 => ?_, fun d hd => ?_, fun d h1 h2 => ?_,
    fun s hk hm => ?_⟩
  · exact if_neg (not_lt.mpr hd)
  · exact if_pos hd
  · exact if_neg (not_lt.mpr hd)
  · exact if_pos hd
  · unfold clamp_desired_depth
    split_ifs <;> linarith
  · exact if_pos hd
  · unfold clamp_desired_depth
    split_ifs <;> linarith
  · rcases hm with hm | hm <;> simp [nav_tick, hk, hm]

/-- Witness for C10 at concrete inputs: desired roll 50 exceeds the maximum
30 and is overwritten by `copysign 30 50`; desired depth 100 exceeds the
maximum 20; the in-range components are kept; through the tick dispatch the
controller state holds the clamped list. -/
theorem advance_move_clamps_desired_in_place_witness :
    (advance_move sampleCfg 80 id id id id id id id id
        [0, 0, 0, 0, 0, 0] [(50 : ℚ), 0, 0, 0, 0, 100]).desired_position =
      [ clamp_desired_tilt sampleCfg.max_roll 50
      , clamp_desired_tilt sampleCfg.max_pitch 0
      , 0, 0, 0
      , clamp_desired_depth sampleCfg 100 ] ∧
    clamp_desired_tilt sampleCfg.max_roll (50 : ℚ) =
      copysign sampleCfg.max_roll 50 ∧
    clamp_desired_tilt sampleCfg.max_pitch (0 : ℚ) = 0 ∧
    clamp_desired_depth sampleCfg (100 : ℚ) = sampleCfg.max_z ∧
    (nav_tick sampleCfg 80 id id id id id id id id sampleNavState).1.desired_position =
      (advance_move sampleCfg 80 id id id id id id id id
        sampleNavState.current_position
        sampleNavState.desired_position).desired_position := by
  have h := advance_move_clamps_desired_in_place sampleCfg 80 id id id id id
    id id id [0, 0, 0, 0, 0, 0] [(50 : ℚ), 0, 0, 0, 0, 100]
  exact ⟨h.1,
    h.2.2.1 50 (by simp [sampleCfg]; norm_num),
    h.2.2.2.1 0 (by simp [sampleCfg]),
    h.2.2.2.2.2.2.2.1 100 (by simp [sampleCfg]) (by simp [sampleCfg]; norm_num),
    h.2.2.2.2.2.2.2.2 sampleNavState (by simp [sampleNavState]) (Or.inl rfl)⟩

/-- C1 (amended): the kill check is evaluated first on every tick of
`Navigation_Controller.run`, and while `sub_killed = 1` the tick commands all
8 thrusters to zero regardless of the movement mode, remote command, desired
pose, or any other field, leaving the controller state untouched; however,
the thruster-test callback applies an incoming `THRUSTS` message via
`simple_thrust` unconditionally, outside the tick dispatch, so incoming
thruster-test values are written to the thrusters even while killed. -/
theorem kill_zeroes_tick_but_not_test_callback (cfg : MovementConfig α)
    (maxT : α) (cos_of_deg sin_of_deg roll_pid pitch_pid yaw_pid x_pid y_pid
      z_pid : α → α) (s : NavState α) (test_thrusts : List α)
    (h : s.sub_killed = 1) :
    (nav_tick cfg maxT cos_of_deg sin_of_deg roll_pid pitch_pid yaw_pid
        x_pid y_pid z_pid s).2 = [0, 0, 0, 0, 0, 0, 0, 0] ∧
    (nav_tick cfg maxT cos_of_deg sin_of_deg roll_pid pitch_pid yaw_pid
        x_pid y_pid z_pid s).1 = s ∧
    update_thruster_test_callback test_thrusts = test_thrusts ∧
    nav_commands_issued cfg maxT cos_of_deg sin_of_deg roll_pid pitch_pid
        yaw_pid x_pid y_pid z_pid s (some test_thrusts) =
      [0, 0, 0, 0, 0, 0, 0, 0] ++ test_thrusts := by
  refine ⟨?_, ?_, rfl, ?_⟩ <;>
    simp [nav_tick, nav_commands_issued, h, simple_thrust,
      update_thruster_test_callback]

/-- Witness for C1's amended theorem at a concrete killed state. -/
theorem kill_zeroes_tick_but_not_test_callback_witness :
    (nav_tick sampleCfg 80 id id id id id id id id killedNavState).2 =
      [0, 0, 0, 0, 0, 0, 0, 0] ∧
    nav_commands_issued sampleCfg 80 id id id id id id id id killedNavState
        (some [(10 : ℚ), 0, 0, 0, 0, 0, 0, 0]) =
      [0, 0, 0, 0, 0, 0, 0, 0] ++ [10, 0, 0, 0, 0, 0, 0, 0] :=
  ⟨(kill_zeroes_tick_but_not_test_callback sampleCfg 80 id id id id id id id
      id killedNavState [(10 : ℚ), 0, 0, 0, 0, 0, 0, 0] rfl).1,
    (kill_zeroes_tick_but_not_test_callback sampleCfg 80 id id id id id id id
      id killedNavState [(10 : ℚ), 0, 0, 0, 0, 0, 0, 0] rfl).2.2.2⟩

/-- C1 counterexample: with the kill flag set, an incoming thruster-test
message `[10, 0, …, 0]` still puts the nonzero command 10 among the thrust
values written to the thrusters, so it is not the case that no field can
cause a nonzero thruster command while killed. -/
theorem kill_override_counterexample :
    killedNavState.sub_killed = 1 ∧
    (10 : ℚ) ∈ nav_commands_issued sampleCfg 80 id id id id id id id id
      killedNavState (some [10, 0, 0, 0, 0, 0, 0, 0]) ∧
    (10 : ℚ) ≠ 0 := by
  refine ⟨rfl, ?_, by norm_num⟩
  simp [nav_commands_issued, nav_tick, killedNavState, sampleNavState,
    update_thruster_test_callback, simple_thrust]

/-- C9: after any fresh enable of waypoint collection the sequence counter is
reset to 0 and a new (empty) log is opened, and after any subsequent
sequence of enable/record events the rows of the currently open log are
exactly `0, 1, 2, …` — each recorded waypoint's number is one greater than
the previous one within the session. -/
theorem waypoint_sequence_numbers (s : WaypointState)
    (es : List WaypointEvent) :
    (waypoint_step s (.enable true)).current_waypoint_number = 0 ∧
    (waypoint_step s (.enable true)).session_rows = [] ∧
    (es.foldl waypoint_step (waypoint_step s (.enable true))).session_rows =
      List.range
        (es.foldl waypoint_step
          (waypoint_step s (.enable true))).current_waypoint_number :=
  ⟨rfl, rfl, waypoint_invariant es _ rfl⟩

end Mechatronics
